import Mathlib

/-!
Shallow embedding of `src/icinga_api.py` (an Ansible module for the Icinga
REST API).

The module's entire executable behaviour is the function `main`
(source lines 214-293): it builds an Ansible `argument_spec` dictionary,
constructs `AnsibleModule(argument_spec=argument_spec)`, and immediately calls
`module.exit_json(changed=False, meta=module.params)`.  No HTTP request is
ever constructed or sent anywhere in the file; the imports of
`ansible.module_utils.urls` contribute only `url_argument_spec()` entries.

Two facts of the source matter throughout and are modelled faithfully:

1. `argument_spec.update(dict(mutually_exclusive=(('cascade_delete',
   'definition')), check_invalid_arguments=False, supports_check_mode=True))`
   (lines 283-287) merges these three keys into the *argument spec dictionary*
   instead of passing them to the `AnsibleModule` constructor.  Consequently no
   mutual-exclusion constraint is configured on the module, and the three keys
   merely become (bogus) legal argument names.

2. The `object_family` entry (lines 246-251) has `"required": False`, and
   `main` performs no conditional check tying it to `endpoint`, although the
   module's own DOCUMENTATION block declares `object_family` as
   `required: true`.

The argument-validation semantics of the external `AnsibleModule` framework
(an out-of-scope collaborator) is modelled declaratively: every violated
field is collected into the validation error, defaults and aliases are
applied as declared by the per-parameter spec dictionaries, and values are
coerced according to the declared `type` (`str` coerces anything, `int`
parses numeric strings, `bool` accepts booleans and the usual boolean
strings; the choices check on the `bool`-typed `cascade_delete` admits the
boolean values themselves next to the literal strings of its choices list,
mirroring the framework's lenient bool/string reconciliation).
-/

namespace IcingaApi

/-- JSON-like values, the type of raw Ansible module arguments and of the
`dict`-typed parameters (`headers`, `definition`). -/
inductive Json where
  | str : String → Json
  | num : Int → Json
  | bool : Bool → Json
  | null : Json
  | arr : List Json → Json
  | obj : List (String × Json) → Json


/-- Python-style string coercion used for `type: 'str'` parameters: strings
pass through, other scalars get a textual rendering.  (The module only ever
receives strings in the string-typed slots; the non-string branches exist so
the coercion is total, as `str()` is in Python.) -/
def jsonToStr : Json → String
  | .str s => s
  | .num n => toString n
  | .bool b => if b then "True" else "False"
  | .null => "None"
  | .arr _ => "<list>"
  | .obj _ => "<dict>"

/-- Decimal-digit accumulator for `parseIntStr`. -/
def parseNatAux : List Char → Nat → Option Nat
  | [], acc => some acc
  | c :: cs, acc =>
      if c.isDigit then parseNatAux cs (acc * 10 + (c.toNat - 48)) else none

/-- Parse an optionally-signed decimal string, as Python `int()` does on the
strings this module ever sees (notably the default `'5665'` of `port`). -/
def parseIntStr (s : String) : Option Int :=
  match s.data with
  | [] => none
  | c :: cs =>
      if c = '-' then
        match cs with
        | [] => none
        | _ => (parseNatAux cs 0).map (fun n => -(n : Int))
      else (parseNatAux (c :: cs) 0).map (fun n => (n : Int))

/-- Coercion for `type: 'int'` parameters: integers pass through, numeric
strings are parsed, anything else is a type error. -/
def jsonToInt : Json → Option Int
  | .num n => some n
  | .str s => parseIntStr s
  | _ => none

/-- Coercion for `type: 'bool'` parameters: booleans pass through, the
framework's recognised boolean strings are converted, anything else is a
type error. -/
def jsonToBool : Json → Option Bool
  | .bool b => some b
  | .num 1 => some true
  | .num 0 => some false
  | .str s =>
      if s = "yes" ∨ s = "on" ∨ s = "1" ∨ s = "true" ∨ s = "True" then some true
      else if s = "no" ∨ s = "off" ∨ s = "0" ∨ s = "false" ∨ s = "False" then some false
      else none
  | _ => none

/-- Raw module arguments: an association list from argument name to value. -/
abbrev RawParams := List (String × Json)

/-- Value resolution for one parameter: the names are tried in priority
order (alias first, then canonical name, mirroring `_handle_aliases`, which
overwrites the canonical entry with the alias value when the alias is
supplied). -/
def resolveValue (raw : RawParams) : List String → Option Json
  | [] => none
  | n :: rest =>
      match raw.lookup n with
      | some v => some v
      | none => resolveValue raw rest

/-- choices of the `endpoint` parameter (source line 244). -/
def endpointChoices : List String := ["objects", "status"]

/-- choices of the `object_family` parameter (source line 250). -/
def objectFamilyChoices : List String :=
  ["zones", "hostgroups", "hosts", "servicegroups", "services"]

/-- choices of the `state` parameter (source line 262). -/
def stateChoices : List String := ["present", "absent"]

/-- Legal argument names: every parameter name of the merged argument spec,
every alias, the entries contributed by `url_argument_spec()`, and the three
keys that line 283-287 mistakenly merged into the argument spec itself. -/
def legalInputs : List String :=
  ["url", "port", "url_username", "user", "url_password", "password",
   "endpoint", "object_family", "object_name", "name", "state", "headers",
   "cascade_delete", "definition", "validate_certs", "force", "thirsty",
   "http_agent", "use_proxy", "force_basic_auth",
   "mutually_exclusive", "check_invalid_arguments", "supports_check_mode"]

/-- Unknown argument names (the constructor is called without
`check_invalid_arguments`, so the framework default of rejecting stray
arguments applies). -/
def strayErrors (raw : RawParams) : List String :=
  (raw.filter (fun kv => !(legalInputs.contains kv.1))).map (fun kv => kv.1)

/-- `url` is `required: True` with no default (lines 220-224); `type: 'str'`
accepts any value, so the only possible violation is absence. -/
def urlErrors (raw : RawParams) : List String :=
  match resolveValue raw ["url"] with
  | none => ["url"]
  | some _ => []

/-- `port` is optional with default `'5665'` and `type: 'int'`
(lines 225-229): a supplied value must be int-coercible. -/
def portErrors (raw : RawParams) : List String :=
  match resolveValue raw ["port"] with
  | none => []
  | some v => if (jsonToInt v).isSome then [] else ["port"]

/-- `endpoint` is `required: True` with `choices: ['objects', 'status']`
(lines 240-245). -/
def endpointErrors (raw : RawParams) : List String :=
  match resolveValue raw ["endpoint"] with
  | none => ["endpoint"]
  | some v => if jsonToStr v ∈ endpointChoices then [] else ["endpoint"]

/-- `object_family` is `required: False` with the five-family choices list
(lines 246-251): only a supplied value outside the choices is a violation;
absence is never one, whatever `endpoint` is. -/
def objectFamilyErrors (raw : RawParams) : List String :=
  match resolveValue raw ["object_family"] with
  | none => []
  | some v => if jsonToStr v ∈ objectFamilyChoices then [] else ["object_family"]

/-- `state` is optional with default `'present'` and choices
`['present', 'absent']` (lines 258-263). -/
def stateErrors (raw : RawParams) : List String :=
  match resolveValue raw ["state"] with
  | none => []
  | some v => if jsonToStr v ∈ stateChoices then [] else ["state"]

/-- `headers` is optional with default `{}` and `type: 'dict'`
(lines 264-268): a supplied value must be a mapping. -/
def headersErrors (raw : RawParams) : List String :=
  match resolveValue raw ["headers"] with
  | none => []
  | some (.obj _) => []
  | some _ => ["headers"]

/-- `cascade_delete` is optional, default `False`, `type: 'bool'`, with the
string choices list `['true', 'false']` (lines 269-274).  The framework's
choices check reconciles boolean values against boolean-looking string
choices, so booleans and the two literal strings pass; everything else
violates the choices list. -/
def cascadeDeleteErrors (raw : RawParams) : List String :=
  match resolveValue raw ["cascade_delete"] with
  | none => []
  | some (.bool _) => []
  | some (.str s) => if s = "true" ∨ s = "false" then [] else ["cascade_delete"]
  | some _ => ["cascade_delete"]

/-- `definition` is optional with default `{}` and `type: 'dict'`
(lines 275-279): a supplied value must be a mapping.  No relation to
`cascade_delete`, `state` or `endpoint` is checked anywhere: the
`mutually_exclusive` pair of line 284 never reaches the `AnsibleModule`
constructor. -/
def definitionErrors (raw : RawParams) : List String :=
  match resolveValue raw ["definition"] with
  | none => []
  | some (.obj _) => []
  | some _ => ["definition"]

/-- `validate_certs` comes from `url_argument_spec()`: optional, bool,
default true. -/
def validateCertsErrors (raw : RawParams) : List String :=
  match resolveValue raw ["validate_certs"] with
  | none => []
  | some v => if (jsonToBool v).isSome then [] else ["validate_certs"]

/-- Every argument-validation violation of the given raw input, each named
by its offending field. -/
def validateErrors (raw : RawParams) : List String :=
  strayErrors raw ++ urlErrors raw ++ portErrors raw ++ endpointErrors raw ++
  objectFamilyErrors raw ++ stateErrors raw ++ headersErrors raw ++
  cascadeDeleteErrors raw ++ definitionErrors raw ++ validateCertsErrors raw

/-- The validated parameter set (`module.params`): every declared parameter,
with defaults applied and values coerced per the declared types. -/
structure ValidatedParams where
  url : String
  port : Int
  url_username : String
  url_password : String
  endpoint : String
  object_family : Option String
  object_name : Option String
  state : String
  headers : Json
  cascade_delete : Bool
  definition : Json
  validate_certs : Bool


/-- Defaults application and type coercion, exactly as declared by the
argument spec of lines 219-280 (plus `validate_certs` from
`url_argument_spec()`): `port` defaults to the string `'5665'` which the
int coercion turns into `5665`; `url_username`/`url_password` default to
`'root'`/`'icinga'` and take the alias names `user`/`password`;
`object_name` takes the alias `name`; `state` defaults to `'present'`;
`headers` and `definition` default to `{}`; `cascade_delete` defaults to
`False`; `validate_certs` defaults to true. -/
def buildParams (raw : RawParams) : ValidatedParams :=
  { url := jsonToStr ((resolveValue raw ["url"]).getD (.str ""))
    port := (jsonToInt ((resolveValue raw ["port"]).getD (.str "5665"))).getD 0
    url_username := jsonToStr ((resolveValue raw ["user", "url_username"]).getD (.str "root"))
    url_password := jsonToStr ((resolveValue raw ["password", "url_password"]).getD (.str "icinga"))
    endpoint := jsonToStr ((resolveValue raw ["endpoint"]).getD (.str ""))
    object_family := (resolveValue raw ["object_family"]).map jsonToStr
    object_name := (resolveValue raw ["name", "object_name"]).map jsonToStr
    state := jsonToStr ((resolveValue raw ["state"]).getD (.str "present"))
    headers := (resolveValue raw ["headers"]).getD (.obj [])
    cascade_delete := (jsonToBool ((resolveValue raw ["cascade_delete"]).getD (.bool false))).getD false
    definition := (resolveValue raw ["definition"]).getD (.obj [])
    validate_certs := (jsonToBool ((resolveValue raw ["validate_certs"]).getD (.str "yes"))).getD true }

/-- Argument validation: the `AnsibleModule(argument_spec=argument_spec)`
construction of lines 289-291.  It either rejects the input, naming every
offending field, or produces `module.params`. -/
def validate (raw : RawParams) : Except (List String) ValidatedParams :=
  if validateErrors raw = [] then .ok (buildParams raw) else .error (validateErrors raw)

/-- An outward HTTP call (method, path, optional body).  `main` never
constructs one; the type exists so that the absence of calls is part of the
model's statements rather than of its meta-level. -/
structure HttpCall where
  method : String
  path : String
  body : Option Json


/-- The reported outcome of `module.exit_json(changed=False,
meta=module.params)` (line 293): `changed` is the literal `False`, `failed`
is false (`exit_json` reports success), and `meta` echoes the whole
validated parameter set. -/
structure Outcome where
  changed : Bool
  failed : Bool
  meta : ValidatedParams


/-- The whole of `main` (lines 214-293): validate the arguments, then exit
immediately with `changed=False` and the parameters echoed under `meta`.
The second component is the list of outward HTTP calls performed during the
run; no statement of `main` constructs or sends a request, so it is `[]` on
every accepted input. -/
def mainRun (raw : RawParams) : Except (List String) (Outcome × List HttpCall) :=
  match validate raw with
  | .error e => .error e
  | .ok p => .ok ({ changed := false, failed := false, meta := p }, [])

/-- Summary of a run: `none` when validation rejects, otherwise the reported
`changed` and `failed` flags and the number of HTTP calls performed. -/
def runSummary (raw : RawParams) : Option (Bool × Bool × Nat) :=
  match mainRun raw with
  | .error _ => none
  | .ok (o, calls) => some (o.changed, o.failed, calls.length)

/-- Scenario A input of the spec: a bare status query. -/
def scenarioA : RawParams :=
  [("url", .str "icinga.example.com"), ("endpoint", .str "status")]

/-- Scenario B input of the spec: declare zone `checker` as present with a
definition body. -/
def scenarioB : RawParams :=
  [("url", .str "icinga.example.com"), ("endpoint", .str "objects"),
   ("object_family", .str "zones"), ("object_name", .str "checker"),
   ("state", .str "present"),
   ("definition", .obj [("templates", .arr [.str "generic-zone"]),
     ("attrs", .obj [("endpoints", .arr [.str "master"])])])]

/-- Scenario C input of the spec: cascade-delete service `web!ssh`. -/
def scenarioC : RawParams :=
  [("url", .str "icinga.example.com"), ("endpoint", .str "objects"),
   ("object_family", .str "services"), ("object_name", .str "web!ssh"),
   ("state", .str "absent"), ("cascade_delete", .bool true)]

/-- Input supplying both `cascade_delete=true` and a non-empty `definition`,
which the spec's mutual-exclusion rule says must be rejected. -/
def bothCascadeAndDefinition : RawParams :=
  [("url", .str "icinga.example.com"), ("endpoint", .str "objects"),
   ("object_family", .str "zones"), ("object_name", .str "checker"),
   ("cascade_delete", .bool true),
   ("definition", .obj [("templates", .arr [.str "generic-zone"])])]

/-- Input targeting `endpoint=objects` while omitting `object_family`,
which the spec says must be rejected. -/
def objectsWithoutFamily : RawParams :=
  [("url", .str "icinga.example.com"), ("endpoint", .str "objects")]

/-- Input omitting `state`, `port` and both credential names, so that every
default of the argument spec applies. -/
def allDefaultsInput : RawParams :=
  [("url", .str "icinga.example.com"), ("endpoint", .str "status")]

/-- Input supplying the credentials through the alias names `user` and
`password`. -/
def aliasCredsInput : RawParams :=
  [("url", .str "icinga.example.com"), ("endpoint", .str "status"),
   ("user", .str "alice"), ("password", .str "secret")]

/-- Input supplying every documented parameter, to exercise the echo of the
whole parameter set in the reported outcome. -/
def fullEchoInput : RawParams :=
  [("url", .str "icinga.example.com"), ("port", .num 1234),
   ("user", .str "alice"), ("password", .str "secret"),
   ("endpoint", .str "objects"), ("object_family", .str "zones"),
   ("object_name", .str "checker"), ("state", .str "present"),
   ("headers", .obj [("Accept", .str "application/json")]),
   ("cascade_delete", .bool false),
   ("definition", .obj [("templates", .arr [.str "generic-zone"])]),
   ("validate_certs", .bool false)]

/-- Minimal accepted input used to exhibit a concrete accepted run. -/
def minimalStatusInput : RawParams :=
  [("url", .str "monitoring.example.com"), ("endpoint", .str "status")]

/-- Definition document used when exercising `definition` next to
`state=absent` / `endpoint=status`. -/
def oddDefinitionDoc : List (String × Json) :=
  [("templates", .arr [.str "generic-zone"])]

theorem resolveValue_one (raw : RawParams) (n : String) :
    resolveValue raw [n] = raw.lookup n := by
  cases h : raw.lookup n <;> simp [resolveValue, h]

theorem validate_ok {raw : RawParams} {p : ValidatedParams}
    (h : validate raw = .ok p) : p = buildParams raw := by
  unfold validate at h
  split at h
  · exact (Except.ok.inj h).symm
  · exact Except.noConfusion h

theorem mainRun_ok {raw : RawParams} {o : Outcome} {calls : List HttpCall}
    (h : mainRun raw = .ok (o, calls)) :
    o = { changed := false, failed := false, meta := buildParams raw } ∧ calls = [] := by
  unfold mainRun at h
  cases hv : validate raw with
  | error e => rw [hv] at h; exact Except.noConfusion h
  | ok p =>
      rw [hv] at h
      have hp := validate_ok hv
      have h2 := Except.ok.inj h
      obtain ⟨ho, hc⟩ := Prod.ext_iff.mp h2.symm
      subst hp
      exact ⟨ho, hc⟩

/-- C1: the spec says a 2xx response on a mutating `PUT`/`POST`/`DELETE`
call yields `changed = true`, `failed = false`.  On the Scenario B input
(which the spec says builds `PUT /v1/objects/zones/checker`) the module
accepts the parameters, performs zero HTTP calls — no mutating call is ever
built — and reports `changed = false`. -/
theorem scenarioB_no_put_changed_false :
    runSummary scenarioB = some (false, false, 0) := by rfl

/-- C2: the spec says `endpoint = status` builds `GET /v1/status` and a 200
response yields `changed = false`, `failed = false`.  On the Scenario A
input the module does report `changed = false`, `failed = false`, but it
performs zero HTTP calls: no `GET /v1/status` is ever built. -/
theorem scenarioA_no_get_built :
    runSummary scenarioA = some (false, false, 0) := by rfl

/-- C3: the spec says a 404 on a `DELETE` is treated as already-absent.  On
the Scenario C input (`state = absent`, `cascade_delete = true`) the module
accepts the parameters and performs zero HTTP calls: no `DELETE` is ever
issued, so no 404 handling exists anywhere in the code. -/
theorem scenarioC_no_delete_issued :
    runSummary scenarioC = some (false, false, 0) := by rfl

/-- C4: the spec says `cascade_delete = true` together with a non-empty
`definition` always fails validation.  The code accepts such input: the
`mutually_exclusive` pair is merged into the argument-spec dictionary
instead of being passed to the `AnsibleModule` constructor, so no
mutual-exclusion check ever runs, and validation succeeds with both fields
set. -/
theorem cascade_and_definition_accepted :
    validate bothCascadeAndDefinition = .ok
      { url := "icinga.example.com", port := 5665, url_username := "root",
        url_password := "icinga", endpoint := "objects",
        object_family := some "zones", object_name := some "checker",
        state := "present", headers := .obj [], cascade_delete := true,
        definition := .obj [("templates", .arr [.str "generic-zone"])],
        validate_certs := true } := by rfl

/-- C5: the spec says `endpoint = objects` requires `object_family`.  The
code declares `object_family` with `required: False` and performs no
conditional check, so an input with `endpoint = objects` and no
`object_family` passes validation. -/
theorem objects_without_family_accepted :
    validate objectsWithoutFamily = .ok
      { url := "icinga.example.com", port := 5665, url_username := "root",
        url_password := "icinga", endpoint := "objects",
        object_family := none, object_name := none, state := "present",
        headers := .obj [], cascade_delete := false, definition := .obj [],
        validate_certs := true } := by rfl

/-- C6: whenever `endpoint` is missing from the raw input or its value is
not one of `objects`/`status`, validation fails with an error naming the
field `endpoint`, and the run produces no outcome (hence no HTTP call is
ever attempted — indeed the code attempts none on any input). -/
theorem endpoint_required_and_validated (raw : RawParams)
    (h : ∀ v, raw.lookup "endpoint" = some v →
      jsonToStr v ≠ "objects" ∧ jsonToStr v ≠ "status") :
    "endpoint" ∈ validateErrors raw ∧ mainRun raw = .error (validateErrors raw) := by
  have he : endpointErrors raw = ["endpoint"] := by
    unfold endpointErrors
    rw [resolveValue_one]
    cases hl : raw.lookup "endpoint" with
    | none => rfl
    | some v =>
        have hv := h v hl
        have hnm : ¬ jsonToStr v ∈ endpointChoices := by
          simp [endpointChoices, hv.1, hv.2]
        simp [hnm]
  have hmem : "endpoint" ∈ validateErrors raw := by
    unfold validateErrors
    rw [he]
    simp
  have hne : validateErrors raw ≠ [] := List.ne_nil_of_mem hmem
  refine ⟨hmem, ?_⟩
  unfold mainRun validate
  rw [if_neg hne]

/-- Witness for C6 at the empty input: `endpoint` is missing, the error
names it, and the run is rejected. -/
theorem endpoint_required_and_validated_witness :
    "endpoint" ∈ validateErrors [] ∧ mainRun [] = .error (validateErrors []) :=
  endpoint_required_and_validated [] (by intro v hv; cases hv)

/-- C7: omitted parameters take the documented defaults — `state = present`,
`port = 5665`, `url_username = root`, `url_password = icinga` — the
credentials are non-empty after defaulting, and the alias names
`user`/`password` are accepted for the credential parameters. -/
theorem defaults_and_alias_credentials :
    (∀ raw p, validate raw = .ok p →
      raw.lookup "state" = none → raw.lookup "port" = none →
      raw.lookup "user" = none → raw.lookup "url_username" = none →
      raw.lookup "password" = none → raw.lookup "url_password" = none →
      p.state = "present" ∧ p.port = 5665 ∧
      p.url_username = "root" ∧ p.url_password = "icinga" ∧
      p.url_username ≠ "" ∧ p.url_password ≠ "") ∧
    (∀ raw p s t, validate raw = .ok p →
      raw.lookup "user" = some (.str s) → raw.lookup "password" = some (.str t) →
      p.url_username = s ∧ p.url_password = t) := by
  constructor
  · intro raw p hv hs hp hu huu hpw hup
    have hb := validate_ok hv
    subst hb
    refine ⟨?_, ?_, ?_, ?_, ?_, ?_⟩ <;>
      simp [buildParams, resolveValue, hs, hp, hu, huu, hpw, hup, jsonToStr,
        jsonToInt, parseIntStr, parseNatAux]
  · intro raw p s t hv hu hpw
    have hb := validate_ok hv
    subst hb
    constructor <;> simp [buildParams, resolveValue, hu, hpw, jsonToStr]

/-- Witness for C7: on `allDefaultsInput` every default applies, and on
`aliasCredsInput` the alias-supplied credentials are taken. -/
theorem defaults_and_alias_credentials_witness :
    ((buildParams allDefaultsInput).state = "present" ∧
     (buildParams allDefaultsInput).port = 5665 ∧
     (buildParams allDefaultsInput).url_username = "root" ∧
     (buildParams allDefaultsInput).url_password = "icinga") ∧
    ((buildParams aliasCredsInput).url_username = "alice" ∧
     (buildParams aliasCredsInput).url_password = "secret") := by
  have h1 := defaults_and_alias_credentials.1 allDefaultsInput
    (buildParams allDefaultsInput) rfl rfl rfl rfl rfl rfl rfl
  have h2 := defaults_and_alias_credentials.2 aliasCredsInput
    (buildParams aliasCredsInput) "alice" "secret" rfl rfl rfl
  exact ⟨⟨h1.1, h1.2.1, h1.2.2.1, h1.2.2.2.1⟩, h2⟩

/-- C8: every accepted invocation reports an outcome that carries the
boolean `changed` flag, echoes the entire (validated) parameter set under
`meta` — each supplied field with its supplied value — and performs no side
effect at all beyond the reported outcome: the list of outward HTTP calls
of the run is empty (in particular it never exceeds the single call the
spec allows), and no state is persisted anywhere in `main`. -/
theorem outcome_echoes_params_no_calls
    (raw : RawParams) (o : Outcome) (calls : List HttpCall)
    (u us pw ep fam nm st : String) (pt : Int)
    (hd df : List (String × Json)) (cd vc : Bool)
    (hrun : mainRun raw = .ok (o, calls))
    (hu : raw.lookup "url" = some (.str u))
    (hpt : raw.lookup "port" = some (.num pt))
    (hus : raw.lookup "user" = some (.str us))
    (hpw : raw.lookup "password" = some (.str pw))
    (hep : raw.lookup "endpoint" = some (.str ep))
    (hfam : raw.lookup "object_family" = some (.str fam))
    (hnm0 : raw.lookup "name" = none)
    (hnm : raw.lookup "object_name" = some (.str nm))
    (hst : raw.lookup "state" = some (.str st))
    (hhd : raw.lookup "headers" = some (.obj hd))
    (hcd : raw.lookup "cascade_delete" = some (.bool cd))
    (hdf : raw.lookup "definition" = some (.obj df))
    (hvc : raw.lookup "validate_certs" = some (.bool vc)) :
    o.changed = false ∧ o.failed = false ∧ calls = [] ∧
    o.meta = { url := u, port := pt, url_username := us, url_password := pw,
               endpoint := ep, object_family := some fam,
               object_name := some nm, state := st, headers := .obj hd,
               cascade_delete := cd, definition := .obj df,
               validate_certs := vc } := by
  obtain ⟨ho, hc⟩ := mainRun_ok hrun
  subst ho
  subst hc
  refine ⟨rfl, rfl, rfl, ?_⟩
  simp [buildParams, resolveValue, hu, hpt, hus, hpw, hep, hfam, hnm0, hnm,
    hst, hhd, hcd, hdf, hvc, jsonToStr, jsonToInt, jsonToBool]

/-- Witness for C8 on an input supplying every documented parameter. -/
theorem outcome_echoes_params_no_calls_witness :
    ({ changed := false, failed := false, meta := buildParams fullEchoInput } : Outcome).changed = false ∧
    ({ changed := false, failed := false, meta := buildParams fullEchoInput } : Outcome).failed = false ∧
    ([] : List HttpCall) = [] ∧
    ({ changed := false, failed := false, meta := buildParams fullEchoInput } : Outcome).meta =
      { url := "icinga.example.com", port := 1234, url_username := "alice",
        url_password := "secret", endpoint := "objects",
        object_family := some "zones", object_name := some "checker",
        state := "present", headers := .obj [("Accept", .str "application/json")],
        cascade_delete := false,
        definition := .obj [("templates", .arr [.str "generic-zone"])],
        validate_certs := false } :=
  outcome_echoes_params_no_calls fullEchoInput
    { changed := false, failed := false, meta := buildParams fullEchoInput } []
    "icinga.example.com" "alice" "secret" "objects" "zones" "checker" "present"
    1234 [("Accept", .str "application/json")]
    [("templates", .arr [.str "generic-zone"])] false false
    rfl rfl rfl rfl rfl rfl rfl rfl rfl rfl rfl rfl rfl rfl

/-- C9: the reported outcome of every accepted invocation has
`changed = false`: line 293 exits with the literal `changed=False`, so no
input can produce `changed = true`. -/
theorem changed_always_false (raw : RawParams) (o : Outcome)
    (calls : List HttpCall) (h : mainRun raw = .ok (o, calls)) :
    o.changed = false := by
  obtain ⟨ho, _⟩ := mainRun_ok h
  subst ho
  rfl

/-- Witness for C9 on a concrete accepted input. -/
theorem changed_always_false_witness :
    ({ changed := false, failed := false, meta := buildParams minimalStatusInput } : Outcome).changed = false :=
  changed_always_false minimalStatusInput
    { changed := false, failed := false, meta := buildParams minimalStatusInput } [] rfl

set_option maxHeartbeats 1000000 in
/-- C10: supplying a `definition` together with `state = absent` or with
`endpoint = status` passes validation — the module has no cross-field check
between `definition`, `state` and `endpoint` — and the supplied definition
is echoed back unchanged in the reported outcome. -/
theorem definition_no_cross_field_restriction
    (u st ep : String) (d : List (String × Json))
    (hst : st ∈ stateChoices) (hep : ep ∈ endpointChoices) :
    mainRun [("url", .str u), ("endpoint", .str ep), ("state", .str st),
        ("definition", .obj d)] =
      .ok ({ changed := false, failed := false, meta :=
        { url := u, port := 5665, url_username := "root",
          url_password := "icinga", endpoint := ep, object_family := none,
          object_name := none, state := st, headers := .obj [],
          cascade_delete := false, definition := .obj d,
          validate_certs := true } }, []) := by
  simp only [stateChoices, endpointChoices, List.mem_cons, List.mem_singleton,
    List.not_mem_nil, or_false] at hst hep
  rcases hst with hst | hst <;> rcases hep with hep | hep <;> subst hst <;> subst hep <;> rfl

/-- Witness for C10: a definition supplied with both `state = absent` and
`endpoint = status` is accepted and echoed. -/
theorem definition_no_cross_field_restriction_witness :
    mainRun [("url", .str "icinga.example.com"), ("endpoint", .str "status"),
        ("state", .str "absent"), ("definition", .obj oddDefinitionDoc)] =
      .ok ({ changed := false, failed := false, meta :=
        { url := "icinga.example.com", port := 5665, url_username := "root",
          url_password := "icinga", endpoint := "status",
          object_family := none, object_name := none, state := "absent",
          headers := .obj [], cascade_delete := false,
          definition := .obj oddDefinitionDoc,
          validate_certs := true } }, []) :=
  definition_no_cross_field_restriction "icinga.example.com" "absent" "status"
    oddDefinitionDoc (by decide) (by decide)

end IcingaApi
